import Mathlib

/-!
Verification of the `smart-test-runner` parsing/listing engine
(`scripts/parse_test_output.py`, `scripts/list_tests.py`) against its
natural-language specification.

The Python code is regex-driven.  We embed the relevant fragment of Python's
`re` semantics (backtracking search with capture groups, greedy and lazy
quantifiers, lookahead, `\Z`, and the MULTILINE form of `$`) as an executable
matcher over `List Char`, then translate each source function definition by
definition on top of it.  Strings are modelled as their character lists;
Python's case folding and whitespace classes are modelled over ASCII, which is
the alphabet all patterns and keywords of the source use.
-/

/-- Python `\d` (ASCII digits, which is all the source's inputs use). -/
def isDigitC (c : Char) : Bool := '0' ≤ c && c ≤ '9'

/-- Python `\s` over ASCII: space, tab, newline, carriage return,
vertical tab, form feed. -/
def isSpaceC (c : Char) : Bool :=
  c = ' ' || c = '\t' || c = '\n' || c = '\x0d' || c = '\x0b' || c = '\x0c'

/-- Python `str.lower`, restricted to ASCII letters. -/
def lowerL (l : List Char) : List Char := l.map Char.toLower

/-- Python `str.strip()` (strip leading and trailing whitespace). -/
def stripL (l : List Char) : List Char :=
  ((l.dropWhile isSpaceC).reverse.dropWhile isSpaceC).reverse

/-- Python `str.split(sep)` for a one-character separator:
`"".split(c) = [""]`, and separators delimit (possibly empty) fields. -/
def splitChar (sep : Char) : List Char → List (List Char)
  | [] => [[]]
  | c :: cs =>
    if c = sep then [] :: splitChar sep cs
    else
      match splitChar sep cs with
      | [] => [[c]]
      | h :: t => (c :: h) :: t

/-- Python `int` on a (non-empty) digit string. -/
def natOfDigits (l : List Char) : Nat :=
  l.foldl (fun a c => a * 10 + (c.toNat - 48)) 0

/-- Python substring test `needle in hay`. -/
def hasSub (needle : List Char) : List Char → Bool
  | [] => needle.isEmpty
  | c :: cs => needle.isPrefixOf (c :: cs) || hasSub needle cs

/-- Regular expressions, covering exactly the constructs the source's
patterns use.  `star a greedy` is `a*` (greedy) or `a*?` (lazy);
`look a` is the lookahead `(?=a)`; `eos` is `\Z`; `eolM` is `$`
under `re.MULTILINE`. -/
inductive Rgx where
  | eps : Rgx
  | cls (p : Char → Bool) : Rgx
  | lit (l : List Char) : Rgx
  | cat (a b : Rgx) : Rgx
  | alt (a b : Rgx) : Rgx
  | star (a : Rgx) (greedy : Bool) : Rgx
  | group (n : Nat) (a : Rgx) : Rgx
  | look (a : Rgx) : Rgx
  | eos : Rgx
  | eolM : Rgx

/-- `a+` / `a+?`. -/
def Rgx.rep1 (a : Rgx) (greedy : Bool) : Rgx := .cat a (.star a greedy)

/-- Concatenation of a pattern list. -/
def Rgx.seq (l : List Rgx) : Rgx := l.foldr .cat .eps

/-- Literal from a string. -/
def Rgx.str (s : String) : Rgx := .lit s.data

/-- `s?` (greedy option). -/
def Rgx.opt (a : Rgx) : Rgx := .alt a .eps

/-- A structural size, used only to budget the matcher's fuel. -/
def Rgx.size : Rgx → Nat
  | .eps => 1
  | .cls _ => 1
  | .lit l => l.length + 1
  | .cat a b => a.size + b.size + 1
  | .alt a b => a.size + b.size + 1
  | .star a _ => a.size + 1
  | .group _ a => a.size + 1
  | .look a => a.size + 1
  | .eos => 1
  | .eolM => 1

/-- Result of one successful match attempt: the input suffix after the
match end, and the captured groups (latest capture of a group first). -/
structure MRes where
  rest : List Char
  caps : List (Nat × List Char)
deriving Repr, DecidableEq

/-- Backtracking matcher in continuation-passing style, reproducing the
preference order of Python's `re` engine: alternatives left to right,
greedy repetition prefers one more iteration, lazy repetition prefers
stopping.  A repetition iteration must consume input to continue (our
patterns' repetition bodies are never nullable, so this matches `re`).
`fuel` bounds the nesting depth of calls; `Rgx.search` passes a budget
that is generous for every pattern/input pair in this development. -/
def Rgx.mat : Nat → Rgx → List Char → List (Nat × List Char) →
    (List Char → List (Nat × List Char) → Option MRes) → Option MRes
  | 0, _, _, _, _ => none
  | Nat.succ fuel, r, s, caps, k =>
    match r with
    | .eps => k s caps
    | .cls p =>
      match s with
      | [] => none
      | c :: cs => if p c then k cs caps else none
    | .lit l => if l.isPrefixOf s then k (s.drop l.length) caps else none
    | .cat a b => Rgx.mat fuel a s caps (fun s1 c1 => Rgx.mat fuel b s1 c1 k)
    | .alt a b =>
      match Rgx.mat fuel a s caps k with
      | some res => some res
      | none => Rgx.mat fuel b s caps k
    | .star a greedy =>
      if greedy then
        match Rgx.mat fuel a s caps (fun s1 c1 =>
            if s1.length < s.length then Rgx.mat fuel (.star a true) s1 c1 k
            else none) with
        | some res => some res
        | none => k s caps
      else
        match k s caps with
        | some res => some res
        | none =>
          Rgx.mat fuel a s caps (fun s1 c1 =>
            if s1.length < s.length then Rgx.mat fuel (.star a false) s1 c1 k
            else none)
    | .group n a =>
      Rgx.mat fuel a s caps (fun s1 c1 =>
        k s1 ((n, s.take (s.length - s1.length)) :: c1))
    | .look a =>
      match Rgx.mat fuel a s caps (fun s1 c1 => some ⟨s1, c1⟩) with
      | some _ => k s caps
      | none => none
    | .eos => match s with | [] => k s caps | _ :: _ => none
    | .eolM =>
      match s with
      | [] => k s caps
      | c :: _ => if c = '\n' then k s caps else none

/-- Fuel budget for one anchored match attempt. -/
def matFuel (r : Rgx) (s : List Char) : Nat :=
  (r.size + 4) * (s.length + 4) * 4

/-- Python `re.search`: try an anchored match at each position, left to
right; the first position with a match wins. -/
def Rgx.searchL (r : Rgx) : List Char → Option MRes
  | [] => Rgx.mat (matFuel r []) r [] [] (fun rest caps => some ⟨rest, caps⟩)
  | c :: cs =>
    match Rgx.mat (matFuel r (c :: cs)) r (c :: cs) []
        (fun rest caps => some ⟨rest, caps⟩) with
    | some res => some res
    | none => Rgx.searchL r cs

/-- Python `re.finditer`: repeated non-overlapping leftmost search, each
scan resuming at the previous match's end.  All patterns iterated in the
source match at least one character, so the empty-match case (where `re`
advances by one position) never arises; we stop there defensively. -/
def Rgx.finditerAux (r : Rgx) : Nat → List Char → List (List (Nat × List Char))
  | 0, _ => []
  | Nat.succ fuel, s =>
    match Rgx.searchL r s with
    | none => []
    | some res =>
      if res.rest.length < s.length then
        res.caps :: Rgx.finditerAux r fuel res.rest
      else [res.caps]

/-- Python `re.finditer`, returning each match's captures in order. -/
def Rgx.finditer (r : Rgx) (s : List Char) : List (List (Nat × List Char)) :=
  Rgx.finditerAux r (s.length + 1) s

/-- `len(re.findall(lit, s))` for a literal pattern: the number of
non-overlapping occurrences, scanning left to right. -/
def countLitAux : Nat → List Char → List Char → Nat
  | 0, _, _ => 0
  | Nat.succ fuel, l, s =>
    if l.isPrefixOf s then 1 + countLitAux fuel l (s.drop l.length)
    else
      match s with
      | [] => 0
      | _ :: cs => countLitAux fuel l cs

/-- Count of non-overlapping literal occurrences. -/
def countLit (l s : List Char) : Nat := countLitAux (s.length + 1) l s

/-- `m.group(n)` of a match: the latest capture of group `n`
(all groups the source reads are captured exactly once per match). -/
def capn (n : Nat) (caps : List (Nat × List Char)) : List Char :=
  match caps.find? (fun p => p.1 == n) with
  | some p => p.2
  | none => []

/-- `int(m.group(n))` — digit captures. -/
def natCap (n : Nat) (caps : List (Nat × List Char)) : Nat :=
  natOfDigits (capn n caps)

/-!  Data model of `parse_test_output.py` (enums and dataclasses).  -/

/-- `class Framework(Enum)` — the order of constructors is the
declaration order of the Python enum, which is also the iteration
order of the detector's pattern dictionary. -/
inductive Framework where
  | JEST | VITEST | PYTEST | GO | PLAYWRIGHT | CYPRESS | UNKNOWN
deriving Repr, DecidableEq

/-- The `value` of each enum member. -/
def Framework.value : Framework → String
  | .JEST => "jest"
  | .VITEST => "vitest"
  | .PYTEST => "pytest"
  | .GO => "go"
  | .PLAYWRIGHT => "playwright"
  | .CYPRESS => "cypress"
  | .UNKNOWN => "unknown"

/-- `Framework(tag)`: value-based enum lookup.  Python raises
`ValueError` when no member has the given value; we return `none`
there and the caller surfaces the error. -/
def Framework.ofString (s : String) : Option Framework :=
  if s = "jest" then some .JEST
  else if s = "vitest" then some .VITEST
  else if s = "pytest" then some .PYTEST
  else if s = "go" then some .GO
  else if s = "playwright" then some .PLAYWRIGHT
  else if s = "cypress" then some .CYPRESS
  else if s = "unknown" then some .UNKNOWN
  else none

/-- `class FailureType(Enum)`. -/
inductive FailureType where
  | ASSERTION | TYPE_ERROR | TIMEOUT | MOCK_ISSUE | ENVIRONMENT | SYNTAX | UNKNOWN
deriving Repr, DecidableEq

/-- The `value` of each `FailureType` member. -/
def FailureType.value : FailureType → String
  | .ASSERTION => "assertion"
  | .TYPE_ERROR => "type_error"
  | .TIMEOUT => "timeout"
  | .MOCK_ISSUE => "mock_issue"
  | .ENVIRONMENT => "environment"
  | .SYNTAX => "syntax"
  | .UNKNOWN => "unknown"

/-- `@dataclass FailedTest`. -/
structure FailedTest where
  file : String
  test_name : String
  error_message : String
  line_number : Option Nat := none
  failure_type : String := "unknown"
  stack_trace : Option String := none
  rerun_command : Option String := none
deriving Repr, DecidableEq

/-- `@dataclass TestResult`.  Counts are `Int` because Python computes
`passed = total - failed` on one path, which can go below zero. -/
structure TestResult where
  framework : String
  total : Int
  passed : Int
  failed : Int
  skipped : Int
  duration_ms : Option Int
  failures : List FailedTest
deriving Repr, DecidableEq

/-!  `classify_failure` (src/scripts/parse_test_output.py:82-99).  -/

/-- Keywords of the `assertion` branch. -/
def assertionKws : List (List Char) :=
  ["expected".data, "to equal".data, "to be".data, "assertion".data, "assert".data]

/-- Keywords of the `type_error` branch. -/
def typeErrorKws : List (List Char) :=
  ["typeerror".data, "undefined is not".data, "null is not".data, "cannot read".data]

/-- Keywords of the `timeout` branch. -/
def timeoutKws : List (List Char) :=
  ["timeout".data, "exceeded".data, "timed out".data]

/-- Keywords of the `mock_issue` branch. -/
def mockKws : List (List Char) :=
  ["mock".data, "spy".data, "stub".data, "not called".data]

/-- Keywords of the `environment` branch. -/
def environmentKws : List (List Char) :=
  ["enoent".data, "connection refused".data, "econnrefused".data, "env".data]

/-- Keywords of the `syntax` branch. -/
def syntaxKws : List (List Char) :=
  ["syntaxerror".data, "unexpected token".data]

/-- `any(kw in error_lower for kw in kws)`. -/
def anyKw (kws : List (List Char)) (lo : List Char) : Bool :=
  kws.any (fun kw => hasSub kw lo)

/-- `classify_failure(error_message)`: lowercase the message, then test
the keyword groups in their fixed order, first hit winning. -/
def classify_failure (error_message : String) : FailureType :=
  let error_lower := lowerL error_message.data
  if anyKw assertionKws error_lower then .ASSERTION
  else if anyKw typeErrorKws error_lower then .TYPE_ERROR
  else if anyKw timeoutKws error_lower then .TIMEOUT
  else if anyKw mockKws error_lower then .MOCK_ISSUE
  else if anyKw environmentKws error_lower then .ENVIRONMENT
  else if anyKw syntaxKws error_lower then .SYNTAX
  else .UNKNOWN

/-!  `detect_framework` (src/scripts/parse_test_output.py:63-79).
All detection searches carry `re.IGNORECASE`; we model that by running
the patterns, written with lowercase literals, over the lowercased text
(every detection pattern's non-literal parts are case-free). -/

/-- Digit run `\d+`. -/
def rDigits : Rgx := Rgx.rep1 (.cls isDigitC) true

/-- `\s+`. -/
def rSpaces : Rgx := Rgx.rep1 (.cls isSpaceC) true

/-- `\S+`. -/
def rNonSpaces : Rgx := Rgx.rep1 (.cls (fun c => !isSpaceC c)) true

/-- `.` without DOTALL: any character except newline. -/
def rAnyNoNl : Rgx := .cls (fun c => c != '\n')

/-- `.` with DOTALL: any character. -/
def rAnyDotall : Rgx := .cls (fun _ => true)

/-- Jest signatures: `PASS|FAIL.*\.test\.`, `Jest`, `expect\(`. -/
def jestSig : List Rgx :=
  [ .alt (.str "pass") (.seq [.str "fail", .star rAnyNoNl true, .str ".test."]),
    .str "jest",
    .str "expect(" ]

/-- Vitest signatures: `vitest`, `✓|×.*\d+ms`, `RERUN`. -/
def vitestSig : List Rgx :=
  [ .str "vitest",
    .alt (.str "✓") (.seq [.str "×", .star rAnyNoNl true, rDigits, .str "ms"]),
    .str "rerun" ]

/-- Pytest signatures: `pytest`, `PASSED|FAILED|ERROR`, `===.*===`. -/
def pytestSig : List Rgx :=
  [ .str "pytest",
    .alt (.str "passed") (.alt (.str "failed") (.str "error")),
    .seq [.str "===", .star rAnyNoNl true, .str "==="] ]

/-- Go signatures: `--- FAIL:|--- PASS:`, `go test`, `FAIL\s+\S+\s+\d+\.\d+s`. -/
def goSig : List Rgx :=
  [ .alt (.str "--- fail:") (.str "--- pass:"),
    .str "go test",
    .seq [.str "fail", rSpaces, rNonSpaces, rSpaces, rDigits, .str ".", rDigits, .str "s"] ]

/-- Playwright signatures: `playwright`, `\d+ passed.*\d+ failed`, `browserType`. -/
def playwrightSig : List Rgx :=
  [ .str "playwright",
    .seq [rDigits, .str " passed", .star rAnyNoNl true, rDigits, .str " failed"],
    .str "browsertype" ]

/-- Cypress signatures: `cypress`, `Running:.*\.cy\.`, `✓|✕`. -/
def cypressSig : List Rgx :=
  [ .str "cypress",
    .seq [.str "running:", .star rAnyNoNl true, .str ".cy."],
    .cls (fun c => c = '✓' || c = '✕') ]

/-- The detector's pattern table, in the dictionary's insertion order. -/
def frameworkPatterns : List (Framework × List Rgx) :=
  [ (.JEST, jestSig), (.VITEST, vitestSig), (.PYTEST, pytestSig),
    (.GO, goSig), (.PLAYWRIGHT, playwrightSig), (.CYPRESS, cypressSig) ]

/-- `sum(1 for p in pats if re.search(p, output, re.IGNORECASE))` over
the lowercased text. -/
def matchCount (pats : List Rgx) (lo : List Char) : Nat :=
  (pats.filter (fun p => (Rgx.searchL p lo).isSome)).length

/-- `detect_framework(output)`: first framework whose signature set
reaches 2 of 3 matches, in table order; `UNKNOWN` when none does. -/
def detect_framework (output : String) : Framework :=
  match frameworkPatterns.find?
      (fun fp => 2 ≤ matchCount fp.2 (lowerL output.data)) with
  | some fp => fp.1
  | none => Framework.UNKNOWN

/-!  Shared pattern pieces and numeric conversion for the extractors.  -/

/-- `[\d.]`. -/
def rDigitDots : Rgx := Rgx.rep1 (.cls (fun c => isDigitC c || c = '.')) true

/-- `\s*`. -/
def rSpacesStar : Rgx := .star (.cls isSpaceC) true

/-- `int(float(g) * 1000)` for a `[\d.]+` capture, with exact arithmetic:
no dot gives `n * 1000`; one dot gives the floor of the decimal value
times 1000 (the value is non-negative, so `int` truncation is floor).
Python's `float` goes through IEEE doubles, whose final-ulp rounding this
exact model does not reproduce; `float` raises `ValueError` on a capture
with two or more dots or with no digit at all, which we surface as `none`. -/
def pyFloatMs (cs : List Char) : Option Nat :=
  match splitChar '.' cs with
  | [a] => if a.isEmpty then none else some (natOfDigits a * 1000)
  | [a, b] =>
    if a.isEmpty && b.isEmpty then none
    else some (natOfDigits (a ++ b) * 1000 / 10 ^ b.length)
  | _ => none

/-!  `parse_jest` (src/scripts/parse_test_output.py:102-164), also used
for Vitest and Cypress output.  -/

/-- `r"FAIL\s+(\S+)\n(.*?)(?=\n(?:PASS|FAIL|Test Suites:)|\Z)"` (DOTALL). -/
def jestFailPattern : Rgx :=
  .seq [.str "FAIL", rSpaces, .group 1 rNonSpaces, .str "\n",
        .group 2 (.star rAnyDotall false),
        .look (.alt (.seq [.str "\n",
                           .alt (.str "PASS") (.alt (.str "FAIL") (.str "Test Suites:"))])
                    .eos)]

/-- `r"[×✕]\s+(.+?)\s+\((\d+)\s*ms\)\n(.*?)(?=\n\s*[×✕●]|\Z)"` (DOTALL). -/
def jestTestPattern : Rgx :=
  .seq [.cls (fun c => c = '×' || c = '✕'), rSpaces,
        .group 1 (Rgx.rep1 rAnyDotall false), rSpaces,
        .str "(", .group 2 rDigits, rSpacesStar, .str "ms)", .str "\n",
        .group 3 (.star rAnyDotall false),
        .look (.alt (.seq [.str "\n", rSpacesStar, .cls (fun c => c = '×' || c = '✕' || c = '●')])
                    .eos)]

/-- `r":(\d+):\d+"`. -/
def lineNumPattern : Rgx := .seq [.str ":", .group 1 rDigits, .str ":", rDigits]

/-- `r"Tests:\s+(\d+)\s+failed.*?(\d+)\s+passed.*?(\d+)\s+total"`
(IGNORECASE: run over the lowercased text). -/
def jestSummaryPattern : Rgx :=
  .seq [.str "tests:", rSpaces, .group 1 rDigits, rSpaces, .str "failed",
        .star rAnyNoNl false, .group 2 rDigits, rSpaces, .str "passed",
        .star rAnyNoNl false, .group 3 rDigits, rSpaces, .str "total"]

/-- `r"(\d+)\s+(?:tests?|specs?)"` (IGNORECASE: over the lowercased text). -/
def jestAltTotalPattern : Rgx :=
  .seq [.group 1 rDigits, rSpaces,
        .alt (.seq [.str "test", .opt (.str "s")]) (.seq [.str "spec", .opt (.str "s")])]

/-- `r"Time:\s+([\d.]+)\s*s"`. -/
def jestDurationPattern : Rgx :=
  .seq [.str "Time:", rSpaces, .group 1 rDigitDots, rSpacesStar, .str "s"]

/-- One `FailedTest` from an inner jest test match (`parse_jest` loop body). -/
def mkJestFailure (file_path : List Char) (m : List (Nat × List Char)) : FailedTest :=
  let test_name := stripL (capn 1 m)
  let error_block := stripL (capn 3 m)
  let error_lines := splitChar '\n' error_block
  let error_message : List Char :=
    match error_lines with
    | [] => "Unknown error".data
    | h :: _ => h
  let line_number : Option Nat :=
    match Rgx.searchL lineNumPattern error_block with
    | some lm => some (natCap 1 lm.caps)
    | none => none
  { file := ⟨file_path⟩, test_name := ⟨test_name⟩, error_message := ⟨error_message⟩,
    line_number := line_number,
    failure_type := (classify_failure ⟨error_message⟩).value,
    rerun_command := some ("npx jest --testNamePattern=\"" ++ ⟨test_name⟩ ++ "\"") }

/-- The jest failure list: the two nested `finditer` loops. -/
def jestFailures (o : List Char) : List FailedTest :=
  (Rgx.finditer jestFailPattern o).flatMap (fun m =>
    (Rgx.finditer jestTestPattern (capn 2 m)).map (mkJestFailure (capn 1 m)))

/-- Jest counts `(total, passed, failed)`: the summary line when it
matches, otherwise the alternative total (or the failure count) with
`passed = total - failed`. -/
def jestCounts (o : List Char) (nfail : Nat) : Int × Int × Int :=
  match Rgx.searchL jestSummaryPattern (lowerL o) with
  | some m => ((natCap 3 m.caps : Int), (natCap 2 m.caps : Int), (natCap 1 m.caps : Int))
  | none =>
    let total : Nat :=
      match Rgx.searchL jestAltTotalPattern (lowerL o) with
      | some m => natCap 1 m.caps
      | none => nfail
    ((total : Int), (total : Int) - (nfail : Int), (nfail : Int))

/-- `parse_jest(output)`.  The `.error` branch models the `ValueError`
Python's `float` raises on a malformed duration capture. -/
def parse_jest (output : String) : Except String TestResult :=
  let failures := jestFailures output.data
  let c := jestCounts output.data failures.length
  match Rgx.searchL jestDurationPattern output.data with
  | some m =>
    match pyFloatMs (capn 1 m.caps) with
    | none => .error "ValueError: float"
    | some d => .ok ⟨"jest", c.1, c.2.1, c.2.2, 0, some (d : Int), failures⟩
  | none => .ok ⟨"jest", c.1, c.2.1, c.2.2, 0, none, failures⟩

/-!  `parse_pytest` (src/scripts/parse_test_output.py:167-221).  -/

/-- `r"FAILED\s+(\S+)::(\S+)"`. -/
def pytestFailPattern : Rgx :=
  .seq [.str "FAILED", rSpaces, .group 1 rNonSpaces, .str "::", .group 2 rNonSpaces]

/-- `rf"{re.escape(test_name)}.*?\n(.*?)(?=\n(?:FAILED|PASSED|=====)|\Z)"`
(DOTALL); `re.escape` makes the interpolated test name a literal. -/
def pytestErrorPattern (test_name : List Char) : Rgx :=
  .seq [.lit test_name, .star rAnyDotall false, .str "\n",
        .group 1 (.star rAnyDotall false),
        .look (.alt (.seq [.str "\n",
                           .alt (.str "FAILED") (.alt (.str "PASSED") (.str "====="))])
                    .eos)]

/-- `r"(\d+)\s+failed.*?(\d+)\s+passed"` (IGNORECASE: over lowercased text). -/
def pytestSummaryPattern : Rgx :=
  .seq [.group 1 rDigits, rSpaces, .str "failed",
        .star rAnyNoNl false, .group 2 rDigits, rSpaces, .str "passed"]

/-- `r"(\d+)\s+passed"` (no flags) — used by the pytest and playwright
fallback count paths (lines 201 and 306 of the source). -/
def passedCountPattern : Rgx := .seq [.group 1 rDigits, rSpaces, .str "passed"]

/-- `r"(\d+)\s+skipped"`. -/
def pytestSkippedPattern : Rgx := .seq [.group 1 rDigits, rSpaces, .str "skipped"]

/-- `r"in\s+([\d.]+)s"`. -/
def pytestDurationPattern : Rgx := .seq [.str "in", rSpaces, .group 1 rDigitDots, .str "s"]

/-- The pytest failure list (`FAILED file::name` occurrences, each with a
best-effort error message search over the whole output). -/
def pytestFailures (o : List Char) : List FailedTest :=
  (Rgx.finditer pytestFailPattern o).map (fun m =>
    let file_path := capn 1 m
    let test_name := capn 2 m
    let error_message : List Char :=
      match Rgx.searchL (pytestErrorPattern test_name) o with
      | some em => (stripL (capn 1 em.caps)).take 200
      | none => "Unknown error".data
    { file := ⟨file_path⟩, test_name := ⟨test_name⟩, error_message := ⟨error_message⟩,
      failure_type := (classify_failure ⟨error_message⟩).value,
      rerun_command := some ("pytest " ++ (⟨file_path⟩ : String) ++ "::" ++ ⟨test_name⟩) })

/-- Pytest counts `(failed, passed)`: summary line first, otherwise the
failure-list length and the standalone `N passed` search (or 0). -/
def pytestCounts (o : List Char) (nfail : Nat) : Nat × Nat :=
  match Rgx.searchL pytestSummaryPattern (lowerL o) with
  | some m => (natCap 1 m.caps, natCap 2 m.caps)
  | none =>
    (nfail,
     match Rgx.searchL passedCountPattern o with
     | some m => natCap 1 m.caps
     | none => 0)

/-- The standalone `N skipped` count (or 0). -/
def pytestSkipped (o : List Char) : Nat :=
  match Rgx.searchL pytestSkippedPattern o with
  | some m => natCap 1 m.caps
  | none => 0

/-- `parse_pytest(output)`: `total` is always `passed + failed + skipped`. -/
def parse_pytest (output : String) : Except String TestResult :=
  let failures := pytestFailures output.data
  let c := pytestCounts output.data failures.length
  let skipped := pytestSkipped output.data
  let total := c.2 + c.1 + skipped
  match Rgx.searchL pytestDurationPattern output.data with
  | some m =>
    match pyFloatMs (capn 1 m.caps) with
    | none => .error "ValueError: float"
    | some d =>
      .ok ⟨"pytest", (total : Int), (c.2 : Int), (c.1 : Int), (skipped : Int),
           some (d : Int), failures⟩
  | none =>
    .ok ⟨"pytest", (total : Int), (c.2 : Int), (c.1 : Int), (skipped : Int), none, failures⟩

/-!  `parse_go` (src/scripts/parse_test_output.py:224-270).  -/

/-- `r"--- FAIL:\s+(\S+)\s+\(([\d.]+)s\)\n(.*?)(?=\n--- |\nFAIL\s|\nok\s|\Z)"`
(DOTALL). -/
def goFailPattern : Rgx :=
  .seq [.str "--- FAIL:", rSpaces, .group 1 rNonSpaces, rSpaces,
        .str "(", .group 2 rDigitDots, .str "s)", .str "\n",
        .group 3 (.star rAnyDotall false),
        .look (.alt (.str "\n--- ")
               (.alt (.seq [.str "\nFAIL", .cls isSpaceC])
                (.alt (.seq [.str "\nok", .cls isSpaceC]) .eos)))]

/-- `r"(\S+\.go):(\d+)"`. -/
def goLocPattern : Rgx :=
  .seq [.group 1 (.cat rNonSpaces (.str ".go")), .str ":", .group 2 rDigits]

/-- `r"([\d.]+)s\s*$"` (MULTILINE `$`). -/
def goDurationPattern : Rgx :=
  .seq [.group 1 rDigitDots, .str "s", rSpacesStar, .eolM]

/-- The go failure list. -/
def goFailures (o : List Char) : List FailedTest :=
  (Rgx.finditer goFailPattern o).map (fun m =>
    let test_name := capn 1 m
    let error_block := stripL (capn 3 m)
    let loc := Rgx.searchL goLocPattern error_block
    let file_path : List Char :=
      match loc with
      | some lm => capn 1 lm.caps
      | none => "unknown".data
    let line_number : Option Nat :=
      match loc with
      | some lm => some (natCap 2 lm.caps)
      | none => none
    let error_lines := ((splitChar '\n' error_block).map stripL).filter (fun l => !l.isEmpty)
    let error_message : List Char :=
      match error_lines with
      | [] => "Unknown error".data
      | h :: _ => h
    { file := ⟨file_path⟩, test_name := ⟨test_name⟩, error_message := ⟨error_message⟩,
      line_number := line_number,
      failure_type := (classify_failure ⟨error_message⟩).value,
      rerun_command := some ("go test -run " ++ (⟨test_name⟩ : String) ++ " ./...") })

/-- `parse_go(output)`: counts come from `--- PASS:` occurrences plus the
extracted failure blocks. -/
def parse_go (output : String) : Except String TestResult :=
  let failures := goFailures output.data
  let pass_count := countLit "--- PASS:".data output.data
  let total := pass_count + failures.length
  match Rgx.searchL goDurationPattern output.data with
  | some m =>
    match pyFloatMs (capn 1 m.caps) with
    | none => .error "ValueError: float"
    | some d =>
      .ok ⟨"go", (total : Int), (pass_count : Int), (failures.length : Int), 0,
           some (d : Int), failures⟩
  | none =>
    .ok ⟨"go", (total : Int), (pass_count : Int), (failures.length : Int), 0, none, failures⟩

/-!  `parse_playwright` (src/scripts/parse_test_output.py:273-319).  -/

/-- `r"(\d+)\)\s+\[.*?\]\s+›\s+(\S+):(\d+):\d+\s+›\s+(.+?)\n(.*?)(?=\n\d+\)|\n\s+\d+ passed|\Z)"`
(DOTALL). -/
def pwFailPattern : Rgx :=
  .seq [.group 1 rDigits, .str ")", rSpaces, .str "[", .star rAnyDotall false, .str "]",
        rSpaces, .str "›", rSpaces, .group 2 rNonSpaces, .str ":", .group 3 rDigits,
        .str ":", rDigits, rSpaces, .str "›", rSpaces,
        .group 4 (Rgx.rep1 rAnyDotall false), .str "\n",
        .group 5 (.star rAnyDotall false),
        .look (.alt (.seq [.str "\n", rDigits, .str ")"])
               (.alt (.seq [.str "\n", rSpaces, rDigits, .str " passed"]) .eos))]

/-- `r"(\d+)\s+passed.*?(\d+)\s+failed"` (no flags). -/
def pwSummaryPattern : Rgx :=
  .seq [.group 1 rDigits, rSpaces, .str "passed",
        .star rAnyNoNl false, .group 2 rDigits, rSpaces, .str "failed"]

/-- The playwright failure list. -/
def pwFailures (o : List Char) : List FailedTest :=
  (Rgx.finditer pwFailPattern o).map (fun m =>
    let file_path := capn 2 m
    let line_number := natCap 3 m
    let test_name := stripL (capn 4 m)
    let error_block := stripL (capn 5 m)
    let error_lines := ((splitChar '\n' error_block).map stripL).filter (fun l => !l.isEmpty)
    let error_message : List Char :=
      match error_lines with
      | [] => "Unknown error".data
      | h :: _ => h
    { file := ⟨file_path⟩, test_name := ⟨test_name⟩,
      error_message := ⟨error_message.take 200⟩,
      line_number := some line_number,
      failure_type := (classify_failure ⟨error_message⟩).value,
      rerun_command := some ("npx playwright test " ++ (⟨file_path⟩ : String) ++ ":"
                             ++ toString line_number) })

/-- Playwright counts `(passed, failed)`: summary first, else the
failure-list length and the standalone `N passed` search (or 0). -/
def pwCounts (o : List Char) (nfail : Nat) : Nat × Nat :=
  match Rgx.searchL pwSummaryPattern o with
  | some m => (natCap 1 m.caps, natCap 2 m.caps)
  | none =>
    (match Rgx.searchL passedCountPattern o with
     | some m => natCap 1 m.caps
     | none => 0,
     nfail)

/-- `parse_playwright(output)`: note that `duration_ms` is the literal
`None` — this extractor has no duration pattern at all. -/
def parse_playwright (output : String) : Except String TestResult :=
  let failures := pwFailures output.data
  let c := pwCounts output.data failures.length
  .ok ⟨"playwright", ((c.1 + c.2 : Nat) : Int), (c.1 : Int), (c.2 : Int), 0, none, failures⟩

/-!  `parse_output` (src/scripts/parse_test_output.py:322-344).  -/

/-- `parsers.get(fw, parse_jest)`: the dispatch table plus its jest
default (`Framework.UNKNOWN` is the one member not in the table). -/
def parserFor : Framework → String → Except String TestResult
  | .JEST => parse_jest
  | .VITEST => parse_jest
  | .PYTEST => parse_pytest
  | .GO => parse_go
  | .PLAYWRIGHT => parse_playwright
  | .CYPRESS => parse_jest
  | .UNKNOWN => parse_jest

/-- Run the chosen extractor, then overwrite the result's framework tag
with the resolved tag unless it is `UNKNOWN` (the `result.framework =
fw.value` assignment). -/
def runParser (fw : Framework) (output : String) : Except String TestResult :=
  match parserFor fw output with
  | .error e => .error e
  | .ok result =>
    .ok (if fw ≠ Framework.UNKNOWN then { result with framework := fw.value } else result)

/-- `parse_output(output, framework=None)`.  `if framework:` is Python
truthiness, so an empty override string falls through to detection;
`Framework(framework)` raises `ValueError` (our `.error`) on a string
that is not an enum value. -/
def parse_output (output : String) (framework : Option String) : Except String TestResult :=
  match framework with
  | some f =>
    if f.isEmpty then runParser (detect_framework output) output
    else
      match Framework.ofString f with
      | none => .error ("ValueError: " ++ f)
      | some fw => runParser fw output
  | none => runParser (detect_framework output) output

/-!  Data model and remaining-set generator of `list_tests.py`.
The listers themselves shell out to external tools and are out of the
core (spec §1); `generate_remaining_tests` is pure and embedded here.
The Python function receives the tests as dicts (`t["id"]`); we keep
them as `TestItem` values, reading the same field. -/

/-- `@dataclass TestItem`. -/
structure TestItem where
  id : String
  name : String
  file : String
  line : Option Nat := none
  suite : Option String := none
deriving Repr, DecidableEq

/-- `@dataclass TestList`. -/
structure TestList where
  framework : String
  total : Int
  tests : List TestItem
  run_single_command : String
  run_from_command : String
  bail_command : String
deriving Repr, DecidableEq

/-- The dict returned by `generate_remaining_tests`. -/
structure RemainingResult where
  remaining_count : Nat
  remaining_tests : List TestItem
  run_remaining_command : Option String
deriving Repr, DecidableEq

/-- `generate_remaining_tests(test_list, failed_index)`
(src/scripts/list_tests.py:233-268).  `failed_index` is a `Nat` here,
matching the claims' range `0 <= failed_index < len(tests)` (Python's
negative-index slicing is outside every claim's scope). -/
def generate_remaining_tests (test_list : TestList) (failed_index : Nat) : RemainingResult :=
  let remaining := test_list.tests.drop (failed_index + 1)
  match remaining with
  | [] => ⟨0, [], none⟩
  | _ :: _ =>
    let framework := test_list.framework
    let test_ids := remaining.map TestItem.id
    let cmd : Option String :=
      if framework = "jest" || framework = "vitest" then
        some ("npx " ++ framework ++ " " ++ String.intercalate " " test_ids)
      else if framework = "pytest" then
        some ("pytest " ++ String.intercalate " " test_ids)
      else if framework = "go" then
        some ("go test -run " ++ "\x27" ++ String.intercalate "|" test_ids ++ "\x27 ./...")
      else if framework = "playwright" then
        some ("npx playwright test " ++ String.intercalate " " test_ids)
      else none
    ⟨remaining.length, remaining, cmd⟩

/-!  Concrete inputs and values used by the claims below.  -/

/-- A concrete five-item inventory (the spec §8 remaining-set example). -/
def demoList : TestList :=
  { framework := "jest", total := 5,
    tests := [⟨"t0", "t0", "f0.test.js", none, none⟩,
              ⟨"t1", "t1", "f1.test.js", none, none⟩,
              ⟨"t2", "t2", "f2.test.js", none, none⟩,
              ⟨"t3", "t3", "f3.test.js", none, none⟩,
              ⟨"t4", "t4", "f4.test.js", none, none⟩],
    run_single_command := "npx jest {test_id}",
    run_from_command := "npx jest --testPathPattern=\x27{test_id}\x27",
    bail_command := "npx jest --bail" }

/-- A pytest run summary with all three component counts present. -/
def c10PytestOut : String := "1 failed, 5 passed, 2 skipped in 2.5s"

/-- Its parse result. -/
def c10PytestRes : TestResult := ⟨"pytest", 8, 5, 1, 2, some 2500, []⟩

/-- A jest summary whose stated total disagrees with its components. -/
def c10JestOut : String := "Tests: 1 failed, 2 passed, 4 total"

/-- The all-zero result for a framework tag. -/
def zeroResult (fw : String) : TestResult := ⟨fw, 0, 0, 0, 0, none, []⟩

/-- Concrete jest output with one failure. -/
def c7JestOut : String := "FAIL a.test.js\n× adds (3 ms)\nexpected 3 to equal 4\n"

/-- Its failure record. -/
def c7JestF : FailedTest :=
  ⟨"a.test.js", "adds", "expected 3 to equal 4", none, "assertion", none,
   some "npx jest --testNamePattern=\"adds\""⟩

/-- Its parse result. -/
def c7JestRes : TestResult := ⟨"jest", 1, 0, 1, 0, none, [c7JestF]⟩

/-- The same output parsed through the vitest alias. -/
def c7VitRes : TestResult := ⟨"vitest", 1, 0, 1, 0, none, [c7JestF]⟩

/-- Concrete pytest output with one failure. -/
def c7PyOut : String := "FAILED tests/a.py::test_x\nassert 1 == 2\n"

/-- Its failure record. -/
def c7PyF : FailedTest :=
  ⟨"tests/a.py", "test_x", "assert 1 == 2", none, "assertion", none,
   some "pytest tests/a.py::test_x"⟩

/-- Its parse result. -/
def c7PyRes : TestResult := ⟨"pytest", 1, 0, 1, 0, none, [c7PyF]⟩

/-- Concrete go output with one failure. -/
def c7GoOut : String := "--- FAIL: TestX (0.00s)\n    a.go:7: boom\n"

/-- Its failure record. -/
def c7GoF : FailedTest :=
  ⟨"a.go", "TestX", "a.go:7: boom", some 7, "unknown", none,
   some "go test -run TestX ./..."⟩

/-- Its parse result. -/
def c7GoRes : TestResult := ⟨"go", 1, 0, 1, 0, none, [c7GoF]⟩

/-- Concrete playwright output with one failure. -/
def c7PwOut : String := "1) [chromium] › a.spec.ts:3:5 › basic\nError: boom\n"

/-- Its failure record. -/
def c7PwF : FailedTest :=
  ⟨"a.spec.ts", "basic", "Error: boom", some 3, "unknown", none,
   some "npx playwright test a.spec.ts:3"⟩

/-- Its parse result. -/
def c7PwRes : TestResult := ⟨"playwright", 1, 0, 1, 0, none, [c7PwF]⟩

/-- Jest output with two extracted failure blocks but a fallback total of
1, driving `passed = total - failed` below zero. -/
def c2Out : String := "FAIL a\n× t1 (1 ms)\ne1\n× t2 (1 ms)\ne2\n1 test"

/-- A jest run whose summary line matches. -/
def c2JestSummaryRes : TestResult := ⟨"jest", 4, 2, 1, 0, none, []⟩

/-- A playwright run summary carrying a seconds duration. -/
def c8Out : String := "  2 passed (3.2s)"

/-!  Claims.  -/

/-- Claim C3: `classify_failure` is a pure total function with the fixed
priority order; any message containing (case-insensitively) an assertion
keyword classifies as `assertion` regardless of later-category keywords,
and a message containing no keyword of any category classifies as
`unknown`. -/
theorem claim_C3 (msg : String) :
    (anyKw assertionKws (lowerL msg.data) = true →
      classify_failure msg = FailureType.ASSERTION) ∧
    (anyKw assertionKws (lowerL msg.data) = false →
     anyKw typeErrorKws (lowerL msg.data) = false →
     anyKw timeoutKws (lowerL msg.data) = false →
     anyKw mockKws (lowerL msg.data) = false →
     anyKw environmentKws (lowerL msg.data) = false →
     anyKw syntaxKws (lowerL msg.data) = false →
      classify_failure msg = FailureType.UNKNOWN) := by
  constructor
  · intro h
    simp [classify_failure, h]
  · intro h1 h2 h3 h4 h5 h6
    simp [classify_failure, h1, h2, h3, h4, h5, h6]

/-- Witness for C3: a message holding both a `timeout` keyword and an
assertion keyword classifies as `assertion`; a keyword-free message
classifies as `unknown`. -/
theorem claim_C3_witness :
    classify_failure "Timeout: expected 5" = FailureType.ASSERTION ∧
    classify_failure "hello world" = FailureType.UNKNOWN :=
  ⟨(claim_C3 "Timeout: expected 5").1 (by decide),
   (claim_C3 "hello world").2 (by decide) (by decide) (by decide) (by decide)
     (by decide) (by decide)⟩

/-- Claim C4: `detect_framework` returns the first framework, in the
declared order jest, vitest, pytest, go, playwright, cypress, whose
signature set reaches 2 of 3 case-insensitive matches, and `UNKNOWN`
when no framework reaches 2. -/
theorem claim_C4 (output : String) :
    detect_framework output =
      (if 2 ≤ matchCount jestSig (lowerL output.data) then Framework.JEST
       else if 2 ≤ matchCount vitestSig (lowerL output.data) then Framework.VITEST
       else if 2 ≤ matchCount pytestSig (lowerL output.data) then Framework.PYTEST
       else if 2 ≤ matchCount goSig (lowerL output.data) then Framework.GO
       else if 2 ≤ matchCount playwrightSig (lowerL output.data) then Framework.PLAYWRIGHT
       else if 2 ≤ matchCount cypressSig (lowerL output.data) then Framework.CYPRESS
       else Framework.UNKNOWN) := by
  by_cases h1 : 2 ≤ matchCount jestSig (lowerL output.data) <;>
    by_cases h2 : 2 ≤ matchCount vitestSig (lowerL output.data) <;>
      by_cases h3 : 2 ≤ matchCount pytestSig (lowerL output.data) <;>
        by_cases h4 : 2 ≤ matchCount goSig (lowerL output.data) <;>
          by_cases h5 : 2 ≤ matchCount playwrightSig (lowerL output.data) <;>
            by_cases h6 : 2 ≤ matchCount cypressSig (lowerL output.data) <;>
              simp [detect_framework, frameworkPatterns, List.find?,
                    h1, h2, h3, h4, h5, h6]

/-- Claim C9: `parse_output` is deterministic and stateless — equal
inputs give identical results. -/
theorem claim_C9 (out1 out2 : String) (fw1 fw2 : Option String)
    (ho : out1 = out2) (hf : fw1 = fw2) :
    parse_output out1 fw1 = parse_output out2 fw2 := by
  subst ho; subst hf; rfl

/-- Witness for C9 at a concrete input. -/
theorem claim_C9_witness :
    parse_output "PASS a\nexpect(1)" (some "jest") =
      parse_output "PASS a\nexpect(1)" (some "jest") :=
  claim_C9 "PASS a\nexpect(1)" "PASS a\nexpect(1)" (some "jest") (some "jest") rfl rfl

/-- Claim C5: for `0 <= failed_index < len(tests)`,
`generate_remaining_tests` returns exactly the ordered suffix after
`failed_index`, with `count` its length; an empty suffix gives count 0
and a null command; a non-empty suffix with an unrecognized framework
tag gives a null command with count and items still reported; the
recognized tags join the remaining ids (space-joined for
jest/vitest/pytest/playwright, `|`-alternation inside `go test -run`
for go). -/
theorem claim_C5 (tl : TestList) (i : Nat) (_hi : i < tl.tests.length) :
    (generate_remaining_tests tl i).remaining_tests = tl.tests.drop (i + 1) ∧
    (generate_remaining_tests tl i).remaining_count = (tl.tests.drop (i + 1)).length ∧
    (tl.tests.drop (i + 1) = [] →
      (generate_remaining_tests tl i).remaining_count = 0 ∧
      (generate_remaining_tests tl i).run_remaining_command = none) ∧
    (tl.tests.drop (i + 1) ≠ [] →
      (tl.framework ≠ "jest" → tl.framework ≠ "vitest" → tl.framework ≠ "pytest" →
       tl.framework ≠ "go" → tl.framework ≠ "playwright" →
        (generate_remaining_tests tl i).run_remaining_command = none) ∧
      (tl.framework = "jest" →
        (generate_remaining_tests tl i).run_remaining_command =
          some ("npx jest " ++
            String.intercalate " " ((tl.tests.drop (i + 1)).map TestItem.id))) ∧
      (tl.framework = "vitest" →
        (generate_remaining_tests tl i).run_remaining_command =
          some ("npx vitest " ++
            String.intercalate " " ((tl.tests.drop (i + 1)).map TestItem.id))) ∧
      (tl.framework = "pytest" →
        (generate_remaining_tests tl i).run_remaining_command =
          some ("pytest " ++
            String.intercalate " " ((tl.tests.drop (i + 1)).map TestItem.id))) ∧
      (tl.framework = "go" →
        (generate_remaining_tests tl i).run_remaining_command =
          some ("go test -run \x27" ++
            String.intercalate "|" ((tl.tests.drop (i + 1)).map TestItem.id) ++
            "\x27 ./...")) ∧
      (tl.framework = "playwright" →
        (generate_remaining_tests tl i).run_remaining_command =
          some ("npx playwright test " ++
            String.intercalate " " ((tl.tests.drop (i + 1)).map TestItem.id)))) := by
  rcases hrem : tl.tests.drop (i + 1) with _ | ⟨a, l⟩
  · simp [generate_remaining_tests, hrem]
  · refine ⟨?_, ?_, ?_, ?_⟩
    · simp [generate_remaining_tests, hrem]
    · simp [generate_remaining_tests, hrem]
    · intro hcon; exact absurd hcon (by simp)
    · intro _
      refine ⟨?_, ?_, ?_, ?_, ?_, ?_⟩
      · intro n1 n2 n3 n4 n5
        simp [generate_remaining_tests, hrem, n1, n2, n3, n4, n5]
      all_goals
        intro hfw
        simp [generate_remaining_tests, hrem, hfw]

/-- Witness for C5: five items, `failed_index = 2` gives the two items at
indices 3 and 4, count 2, and a command referencing exactly those ids. -/
theorem claim_C5_witness :
    (generate_remaining_tests demoList 2).remaining_tests = demoList.tests.drop 3 ∧
    (generate_remaining_tests demoList 2).remaining_count = 2 ∧
    (generate_remaining_tests demoList 2).run_remaining_command = some "npx jest t3 t4" := by
  have h := claim_C5 demoList 2 (by decide)
  refine ⟨h.1, h.2.1.trans (by decide), ?_⟩
  have hc := (h.2.2.2 (by decide)).2.1 rfl
  exact hc.trans (by decide)

/-- Shape of any successful `parse_jest` result. -/
theorem parse_jest_ok (out : String) (r : TestResult) (h : parse_jest out = .ok r) :
    r.framework = "jest" ∧
    r.failures = jestFailures out.data ∧
    r.total = (jestCounts out.data (jestFailures out.data).length).1 ∧
    r.passed = (jestCounts out.data (jestFailures out.data).length).2.1 ∧
    r.failed = (jestCounts out.data (jestFailures out.data).length).2.2 ∧
    r.skipped = 0 := by
  simp only [parse_jest] at h
  split at h
  · split at h
    · exact absurd h (by simp)
    · obtain rfl := (Except.ok.inj h).symm
      exact ⟨rfl, rfl, rfl, rfl, rfl, rfl⟩
  · obtain rfl := (Except.ok.inj h).symm
    exact ⟨rfl, rfl, rfl, rfl, rfl, rfl⟩

/-- Shape of any successful `parse_pytest` result. -/
theorem parse_pytest_ok (out : String) (r : TestResult) (h : parse_pytest out = .ok r) :
    r.framework = "pytest" ∧
    r.failures = pytestFailures out.data ∧
    r.passed = ((pytestCounts out.data (pytestFailures out.data).length).2 : Int) ∧
    r.failed = ((pytestCounts out.data (pytestFailures out.data).length).1 : Int) ∧
    r.skipped = (pytestSkipped out.data : Int) ∧
    r.total = r.passed + r.failed + r.skipped := by
  simp only [parse_pytest] at h
  split at h
  · split at h
    · exact absurd h (by simp)
    · obtain rfl := (Except.ok.inj h).symm
      refine ⟨rfl, rfl, rfl, rfl, rfl, ?_⟩
      push_cast
      ring
  · obtain rfl := (Except.ok.inj h).symm
    refine ⟨rfl, rfl, rfl, rfl, rfl, ?_⟩
    push_cast
    ring

/-- Shape of any successful `parse_go` result. -/
theorem parse_go_ok (out : String) (r : TestResult) (h : parse_go out = .ok r) :
    r.framework = "go" ∧
    r.failures = goFailures out.data ∧
    r.passed = (countLit "--- PASS:".data out.data : Int) ∧
    r.failed = ((goFailures out.data).length : Int) ∧
    r.skipped = 0 ∧
    r.total = ((countLit "--- PASS:".data out.data + (goFailures out.data).length : Nat) : Int) := by
  simp only [parse_go] at h
  split at h
  · split at h
    · exact absurd h (by simp)
    · obtain rfl := (Except.ok.inj h).symm
      exact ⟨rfl, rfl, rfl, rfl, rfl, rfl⟩
  · obtain rfl := (Except.ok.inj h).symm
    exact ⟨rfl, rfl, rfl, rfl, rfl, rfl⟩

/-- `parse_playwright` always succeeds, with this exact shape. -/
theorem parse_playwright_ok (out : String) :
    parse_playwright out =
      .ok ⟨"playwright",
           (((pwCounts out.data (pwFailures out.data).length).1 +
             (pwCounts out.data (pwFailures out.data).length).2 : Nat) : Int),
           ((pwCounts out.data (pwFailures out.data).length).1 : Int),
           ((pwCounts out.data (pwFailures out.data).length).2 : Int),
           0, none, pwFailures out.data⟩ := rfl

/-- Claim C10: every successful pytest result satisfies
`total = passed + failed + skipped` exactly (the total is derived by
summation, never read from a summary line), while the jest extractor can
return a total that disagrees with its component counts (here 4 against
2 + 1 + 0). -/
theorem claim_C10 :
    (∀ (out : String) (r : TestResult), parse_pytest out = .ok r →
      r.total = r.passed + r.failed + r.skipped) ∧
    (parse_jest c10JestOut).toOption.map
        (fun r => (r.total, r.passed + r.failed + r.skipped)) = some (4, 3) := by
  constructor
  · intro out r h
    exact (parse_pytest_ok out r h).2.2.2.2.2
  · rfl

/-- Witness for C10 at a concrete pytest output. -/
theorem claim_C10_witness :
    c10PytestRes.total = c10PytestRes.passed + c10PytestRes.failed + c10PytestRes.skipped :=
  claim_C10.1 c10PytestOut c10PytestRes (by rfl)

/-- Claim C6: on any input where none of an extractor's patterns match —
in particular the empty string — that extractor returns (it never
raises) the well-formed zero result: all counts 0, empty failure list,
absent duration. -/
theorem claim_C6 (out : String) :
    (Rgx.finditer jestFailPattern out.data = [] →
     Rgx.searchL jestSummaryPattern (lowerL out.data) = none →
     Rgx.searchL jestAltTotalPattern (lowerL out.data) = none →
     Rgx.searchL jestDurationPattern out.data = none →
      parse_jest out = .ok (zeroResult "jest")) ∧
    (Rgx.finditer pytestFailPattern out.data = [] →
     Rgx.searchL pytestSummaryPattern (lowerL out.data) = none →
     Rgx.searchL passedCountPattern out.data = none →
     Rgx.searchL pytestSkippedPattern out.data = none →
     Rgx.searchL pytestDurationPattern out.data = none →
      parse_pytest out = .ok (zeroResult "pytest")) ∧
    (Rgx.finditer goFailPattern out.data = [] →
     countLit "--- PASS:".data out.data = 0 →
     Rgx.searchL goDurationPattern out.data = none →
      parse_go out = .ok (zeroResult "go")) ∧
    (Rgx.finditer pwFailPattern out.data = [] →
     Rgx.searchL pwSummaryPattern out.data = none →
     Rgx.searchL passedCountPattern out.data = none →
      parse_playwright out = .ok (zeroResult "playwright")) := by
  refine ⟨?_, ?_, ?_, ?_⟩
  · intro h1 h2 h3 h4
    simp [parse_jest, jestFailures, jestCounts, zeroResult, h1, h2, h3, h4]
  · intro h1 h2 h3 h4 h5
    simp [parse_pytest, pytestFailures, pytestCounts, pytestSkipped, zeroResult,
          h1, h2, h3, h4, h5]
  · intro h1 h2 h3
    simp [parse_go, goFailures, zeroResult, h1, h2, h3]
  · intro h1 h2 h3
    simp [parse_playwright, pwFailures, pwCounts, zeroResult, h1, h2, h3]

/-- Witness for C6: the empty string yields the zero result from every
extractor. -/
theorem claim_C6_witness :
    parse_jest "" = .ok (zeroResult "jest") ∧
    parse_pytest "" = .ok (zeroResult "pytest") ∧
    parse_go "" = .ok (zeroResult "go") ∧
    parse_playwright "" = .ok (zeroResult "playwright") :=
  ⟨(claim_C6 "").1 rfl rfl rfl rfl,
   (claim_C6 "").2.1 rfl rfl rfl rfl rfl,
   (claim_C6 "").2.2.1 rfl rfl rfl,
   (claim_C6 "").2.2.2 rfl rfl rfl⟩

/-- Every jest-family failure record's rerun command is the jest template
instantiated from its own `test_name`. -/
theorem jestFailures_rerun (o : List Char) :
    ∀ f ∈ jestFailures o,
      f.rerun_command = some ("npx jest --testNamePattern=\"" ++ f.test_name ++ "\"") := by
  intro f hf
  simp only [jestFailures, List.mem_flatMap, List.mem_map] at hf
  obtain ⟨m, -, tm, -, rfl⟩ := hf
  rfl

/-- Every pytest failure record's rerun command is the pytest template
instantiated from its own `file` and `test_name`. -/
theorem pytestFailures_rerun (o : List Char) :
    ∀ f ∈ pytestFailures o,
      f.rerun_command = some ("pytest " ++ f.file ++ "::" ++ f.test_name) := by
  intro f hf
  simp only [pytestFailures, List.mem_map] at hf
  obtain ⟨m, -, rfl⟩ := hf
  rfl

/-- Every go failure record's rerun command is the go template
instantiated from its own `test_name`. -/
theorem goFailures_rerun (o : List Char) :
    ∀ f ∈ goFailures o,
      f.rerun_command = some ("go test -run " ++ f.test_name ++ " ./...") := by
  intro f hf
  simp only [goFailures, List.mem_map] at hf
  obtain ⟨m, -, rfl⟩ := hf
  rfl

/-- Every playwright failure record's rerun command is the playwright
template instantiated from its own `file` and `line_number`. -/
theorem pwFailures_rerun (o : List Char) :
    ∀ f ∈ pwFailures o, ∀ n, f.line_number = some n →
      f.rerun_command = some ("npx playwright test " ++ f.file ++ ":" ++ toString n) := by
  intro f hf n hn
  simp only [pwFailures, List.mem_map] at hf
  obtain ⟨m, -, rfl⟩ := hf
  obtain rfl := Option.some.inj hn
  rfl

/-- Claim C7: each extractor's `FailedTest` records carry exactly the
framework's fixed rerun template instantiated from the record's own
fields, including when the assembler reached the jest extractor through
the vitest/cypress aliases. -/
theorem claim_C7 :
    (∀ (out : String) (r : TestResult), parse_jest out = .ok r →
      ∀ f ∈ r.failures,
        f.rerun_command = some ("npx jest --testNamePattern=\"" ++ f.test_name ++ "\"")) ∧
    (∀ (out : String) (r : TestResult), parse_pytest out = .ok r →
      ∀ f ∈ r.failures,
        f.rerun_command = some ("pytest " ++ f.file ++ "::" ++ f.test_name)) ∧
    (∀ (out : String) (r : TestResult), parse_go out = .ok r →
      ∀ f ∈ r.failures,
        f.rerun_command = some ("go test -run " ++ f.test_name ++ " ./...")) ∧
    (∀ (out : String) (r : TestResult), parse_playwright out = .ok r →
      ∀ f ∈ r.failures, ∀ n, f.line_number = some n →
        f.rerun_command = some ("npx playwright test " ++ f.file ++ ":" ++ toString n)) ∧
    (∀ (tag : String) (out : String) (r : TestResult),
      (tag = "vitest" ∨ tag = "cypress") → parse_output out (some tag) = .ok r →
      ∀ f ∈ r.failures,
        f.rerun_command = some ("npx jest --testNamePattern=\"" ++ f.test_name ++ "\"")) := by
  refine ⟨?_, ?_, ?_, ?_, ?_⟩
  · intro out r h
    rw [(parse_jest_ok out r h).2.1]
    exact jestFailures_rerun out.data
  · intro out r h
    rw [(parse_pytest_ok out r h).2.1]
    exact pytestFailures_rerun out.data
  · intro out r h
    rw [(parse_go_ok out r h).2.1]
    exact goFailures_rerun out.data
  · intro out r h
    obtain rfl := (Except.ok.inj ((parse_playwright_ok out).symm.trans h))
    exact pwFailures_rerun out.data
  · have step : ∀ (fw : Framework) (out : String) (r : TestResult),
        parserFor fw = parse_jest → runParser fw out = .ok r →
        ∀ f ∈ r.failures,
          f.rerun_command = some ("npx jest --testNamePattern=\"" ++ f.test_name ++ "\"") := by
      intro fw out r hfw h f hf
      unfold runParser at h
      rw [hfw] at h
      split at h
      · exact absurd h (by simp)
      · rename_i r0 heq
        obtain rfl := (Except.ok.inj h).symm
        have hf0 : f ∈ r0.failures := by
          split at hf
          · exact hf
          · exact hf
        rw [(parse_jest_ok out r0 heq).2.1] at hf0
        exact jestFailures_rerun out.data f hf0
    rintro tag out r (rfl | rfl) h
    · exact step Framework.VITEST out r rfl h
    · exact step Framework.CYPRESS out r rfl h

/-- Witness for C7: each template equality realized on a concrete
extracted failure, including via the vitest alias dispatch. -/
theorem claim_C7_witness :
    c7JestF.rerun_command = some ("npx jest --testNamePattern=\"" ++ c7JestF.test_name ++ "\"") ∧
    c7PyF.rerun_command = some ("pytest " ++ c7PyF.file ++ "::" ++ c7PyF.test_name) ∧
    c7GoF.rerun_command = some ("go test -run " ++ c7GoF.test_name ++ " ./...") ∧
    c7PwF.rerun_command = some ("npx playwright test " ++ c7PwF.file ++ ":" ++ toString 3) ∧
    c7VitRes.failures.map FailedTest.rerun_command =
      [some ("npx jest --testNamePattern=\"" ++ c7JestF.test_name ++ "\"")] := by
  refine ⟨?_, ?_, ?_, ?_, ?_⟩
  · exact claim_C7.1 c7JestOut c7JestRes rfl c7JestF (by decide)
  · exact claim_C7.2.1 c7PyOut c7PyRes rfl c7PyF (by decide)
  · exact claim_C7.2.2.1 c7GoOut c7GoRes rfl c7GoF (by decide)
  · exact claim_C7.2.2.2.1 c7PwOut c7PwRes rfl c7PwF (by decide) 3 rfl
  · have := claim_C7.2.2.2.2 "vitest" c7JestOut c7VitRes (Or.inl rfl) rfl c7JestF (by decide)
    simpa [c7VitRes] using this

/-- Non-negativity facts about jest counts: total and failed are always
non-negative, and so is passed whenever the summary line matched. -/
theorem jestCounts_nonneg (o : List Char) (n : Nat) :
    0 ≤ (jestCounts o n).1 ∧ 0 ≤ (jestCounts o n).2.2 ∧
    (Rgx.searchL jestSummaryPattern (lowerL o) ≠ none → 0 ≤ (jestCounts o n).2.1) := by
  unfold jestCounts
  split
  · exact ⟨Int.natCast_nonneg _, Int.natCast_nonneg _, fun _ => Int.natCast_nonneg _⟩
  · rename_i heq
    exact ⟨Int.natCast_nonneg _, Int.natCast_nonneg _, fun hc => absurd heq hc⟩

/-- Counterexample to C2 as stated: on `c2Out` the jest extractor's
fallback path returns `passed = -1 < 0`. -/
theorem claim_C2_counterexample :
    (parse_jest c2Out).toOption.map TestResult.passed = some (-1) := by
  rfl

/-- Claim C2, amended: every count of the pytest, go and playwright
extractors is non-negative, and the jest extractor's total, failed and
skipped are non-negative, as is its passed count whenever the summary
line matched — but the jest fallback `passed = total - failed` can be
negative (see the counterexample). -/
theorem claim_C2_amended (out : String) :
    (∀ r, parse_pytest out = .ok r →
      0 ≤ r.total ∧ 0 ≤ r.passed ∧ 0 ≤ r.failed ∧ 0 ≤ r.skipped) ∧
    (∀ r, parse_go out = .ok r →
      0 ≤ r.total ∧ 0 ≤ r.passed ∧ 0 ≤ r.failed ∧ 0 ≤ r.skipped) ∧
    (∀ r, parse_playwright out = .ok r →
      0 ≤ r.total ∧ 0 ≤ r.passed ∧ 0 ≤ r.failed ∧ 0 ≤ r.skipped) ∧
    (∀ r, parse_jest out = .ok r →
      0 ≤ r.total ∧ 0 ≤ r.failed ∧ 0 ≤ r.skipped ∧
      (Rgx.searchL jestSummaryPattern (lowerL out.data) ≠ none → 0 ≤ r.passed)) := by
  refine ⟨?_, ?_, ?_, ?_⟩
  · intro r h
    obtain ⟨-, -, hp, hf, hs, ht⟩ := parse_pytest_ok out r h
    rw [ht, hp, hf, hs]
    refine ⟨by positivity, Int.natCast_nonneg _, Int.natCast_nonneg _, Int.natCast_nonneg _⟩
  · intro r h
    obtain ⟨-, -, hp, hf, hs, ht⟩ := parse_go_ok out r h
    rw [ht, hp, hf, hs]
    exact ⟨Int.natCast_nonneg _, Int.natCast_nonneg _, Int.natCast_nonneg _, le_refl 0⟩
  · intro r h
    obtain rfl := (Except.ok.inj ((parse_playwright_ok out).symm.trans h))
    exact ⟨Int.natCast_nonneg _, Int.natCast_nonneg _, Int.natCast_nonneg _, le_refl 0⟩
  · intro r h
    obtain ⟨-, -, ht, hp, hf, hs⟩ := parse_jest_ok out r h
    have hn := jestCounts_nonneg out.data (jestFailures out.data).length
    rw [ht, hf, hs, hp]
    exact ⟨hn.1, hn.2.1, le_refl 0, hn.2.2⟩

/-- Witness for the amended C2 at concrete inputs, including the
summary-matched jest case. -/
theorem claim_C2_witness :
    (0 ≤ c10PytestRes.total ∧ 0 ≤ c10PytestRes.passed ∧
     0 ≤ c10PytestRes.failed ∧ 0 ≤ c10PytestRes.skipped) ∧
    0 ≤ c2JestSummaryRes.passed := by
  constructor
  · exact (claim_C2_amended c10PytestOut).1 c10PytestRes rfl
  · exact ((claim_C2_amended c10JestOut).2.2.2 c2JestSummaryRes rfl).2.2.2 (by decide)

/-- Counterexample to C1 as stated: the unsupported override "mocha"
makes `parse_output` raise `ValueError` rather than fall back, and the
override "unknown" (an enum value but not a supported framework) returns
the fallback extractor's tag "jest", not the override tag. -/
theorem claim_C1_counterexample :
    parse_output "" (some "mocha") = .error ("ValueError: " ++ "mocha") ∧
    (parse_output "" (some "unknown")).toOption.map TestResult.framework = some "jest" :=
  ⟨rfl, rfl⟩

/-- Claim C1, amended: a non-empty override string that is not a
`Framework` enum value makes `parse_output` raise `ValueError`; the
override "unknown" dispatches to the jest extractor with the fallback's
tag kept; an override naming any other enum value dispatches to that
member's extractor and stamps that member's tag on the result. -/
theorem claim_C1_amended (out : String) (s : String) :
    (s.isEmpty = false → Framework.ofString s = none →
      parse_output out (some s) = .error ("ValueError: " ++ s)) ∧
    (parse_output out (some "unknown") = parse_jest out) ∧
    (∀ (fw : Framework) (r : TestResult),
      s.isEmpty = false → Framework.ofString s = some fw → fw ≠ Framework.UNKNOWN →
      parse_output out (some s) = .ok r → r.framework = fw.value) := by
  refine ⟨?_, ?_, ?_⟩
  · intro hne hofs
    simp only [parse_output]
    rw [if_neg (by simp [hne]), hofs]
  · have h1 : parse_output out (some "unknown") = runParser Framework.UNKNOWN out := rfl
    rw [h1]
    unfold runParser
    have hpf : parserFor Framework.UNKNOWN = parse_jest := rfl
    rw [hpf]
    cases hj : parse_jest out with
    | error e => simp
    | ok r => simp
  · intro fw r hne hofs hfw h
    simp only [parse_output] at h
    rw [if_neg (by simp [hne]), hofs] at h
    have h' : runParser fw out = .ok r := h
    unfold runParser at h'
    split at h'
    · exact absurd h' (by simp)
    · rw [if_pos hfw] at h'
      obtain rfl := (Except.ok.inj h').symm
      rfl

/-- Witness for the amended C1: the three behaviors realized at concrete
inputs ("mocha" raises, "unknown" falls back to jest, "vitest" stamps
its own tag). -/
theorem claim_C1_witness :
    parse_output "" (some "mocha") = .error ("ValueError: " ++ "mocha") ∧
    parse_output "" (some "unknown") = parse_jest "" ∧
    c7VitRes.framework = Framework.VITEST.value := by
  refine ⟨?_, ?_, ?_⟩
  · exact (claim_C1_amended "" "mocha").1 rfl rfl
  · exact (claim_C1_amended "" "mocha").2.1
  · exact (claim_C1_amended c7JestOut "vitest").2.2 Framework.VITEST c7VitRes rfl rfl
      (by decide) rfl

/-- Claim C8 at the failing input: the jest, pytest and go extractors
each derive `duration_ms` from their seconds pattern by multiplying by
1000 and truncating (3.2 s gives 3200 ms), but the playwright extractor
returns an absent duration even on an output that carries one — its
`duration_ms` is the literal `None`; it attempts no duration pattern. -/
theorem claim_C8 :
    parse_playwright c8Out = .ok ⟨"playwright", 2, 2, 0, 0, none, []⟩ ∧
    parse_jest "Time: 3.2 s" = .ok ⟨"jest", 0, 0, 0, 0, some 3200, []⟩ ∧
    parse_pytest "2 failed, 3 passed in 3.2s" = .ok ⟨"pytest", 5, 3, 2, 0, some 3200, []⟩ ∧
    parse_go "--- PASS: TestA (0.10s)\nok pkg 3.2s" = .ok ⟨"go", 1, 1, 0, 0, some 3200, []⟩ :=
  ⟨rfl, rfl, rfl, rfl⟩
